import Mathlib

/-!
Verification of the startup configuration-resolution layer of ncmpcpp
(`src/configuration.cpp`), shallowly embedded in Lean.

Strings are modelled as `List Char` (`Str`).  The embedding follows the
source function by function: `xdg_config_home` and `expand_home` are direct
translations; `configure` is decomposed into the same sequence of stages the
source runs through, with the observable side effects (configuration read,
bindings read, generation of default bindings, directory creation) recorded
as an ordered event list, and the text written to stdout/stderr recorded in
the result.  Code of the repository that is not part of
`src/configuration.cpp` (the `Config.read` settings reader, the
`Bindings.read` loader, `stringtoStartupScreenType`, and the `main` caller)
is modelled from the spec, as marked on each such definition.
-/

abbrev Str := List Char

/-- Translation of `expand_home`, configuration.cpp:59-64: if the path is
non-empty and its first character is `'~'`, that single character is
replaced by the resolved home directory (`path.replace(0, 1, env_home)`);
otherwise the path is left unchanged. -/
def expand_home (env_home : Str) (path : Str) : Str :=
  match path with
  | [] => []
  | c :: rest => if c = '~' then env_home ++ rest else c :: rest

/-- Translation of `xdg_config_home`, configuration.cpp:42-55: if
`XDG_CONFIG_HOME` is unset the result is `"~/.config/"`; otherwise it is the
variable's value with a `'/'` appended when the value is non-empty and does
not already end in `'/'`. -/
def xdg_config_home (env_xdg_config_home : Option Str) : Str :=
  match env_xdg_config_home with
  | none => "~/.config/".toList
  | some v => if v ≠ [] ∧ v.getLast? ≠ some '/' then v ++ ['/'] else v

/-- One parsed option value together with its origin: `explicit` is true
exactly when the user supplied the option on the command line, mirroring
boost's `variables_map`, where `defaulted()` is the negation of this bit. -/
structure OptVal (α : Type) where
  value : α
  explicit : Bool
deriving Repr, DecidableEq

/-- The typed key/value bag produced by command-line parsing: one field per
option declared in configuration.cpp:76-87, with the declared default values
filled in by `defaultVarMap`. -/
structure VarMap where
  host : OptVal Str
  port : OptVal Int
  config : OptVal (List Str)
  ignoreConfigErrors : OptVal Bool
  bindings : OptVal Str
  screen : Option Str
  slaveScreen : Option Str
  help : Bool
  version : Bool
deriving Repr, DecidableEq

/-- The default-initialized variables map, holding the option defaults of
configuration.cpp:76-87.  The default configuration-path list is
`default_config_paths` of configuration.cpp:68-71 and depends on
`XDG_CONFIG_HOME`. -/
def defaultVarMap (env_xdg_config_home : Option Str) : VarMap :=
  { host := ⟨"localhost".toList, false⟩
    port := ⟨6600, false⟩
    config := ⟨["~/.ncmpcpp/config".toList,
                xdg_config_home env_xdg_config_home ++ "ncmpcpp/config".toList],
               false⟩
    ignoreConfigErrors := ⟨false, false⟩
    bindings := ⟨"~/.ncmpcpp/bindings".toList, false⟩
    screen := none
    slaveScreen := none
    help := false
    version := false }

/-- Value of a decimal digit character, `none` on any other character. -/
def digitVal (c : Char) : Option Nat :=
  if '0' ≤ c ∧ c ≤ '9' then some (c.toNat - '0'.toNat) else none

/-- Parse a non-empty string of decimal digits as a natural number
(accumulator form). -/
def parseNatDigits : Str → Nat → Option Nat
  | [], acc => some acc
  | c :: rest, acc =>
    match digitVal c with
    | some d => parseNatDigits rest (acc * 10 + d)
    | none => none

/-- Model of `boost::lexical_cast<int>` as used for option values and for
`MPD_PORT` (configuration.cpp:179): an optional sign followed by decimal
digits; anything else fails. -/
def parseIntTok (s : Str) : Option Int :=
  match s with
  | [] => none
  | '-' :: rest =>
    if rest = [] then none else (parseNatDigits rest 0).map (fun n => -(n : Int))
  | '+' :: rest =>
    if rest = [] then none else (parseNatDigits rest 0).map (fun n => (n : Int))
  | _ => (parseNatDigits s 0).map (fun n => (n : Int))

/-- Parse of a `bool`-valued option argument (for `--ignore-config-errors`). -/
def parseBoolTok (s : Str) : Option Bool :=
  if s = "1".toList ∨ s = "true".toList ∨ s = "on".toList ∨ s = "yes".toList then
    some true
  else if s = "0".toList ∨ s = "false".toList ∨ s = "off".toList ∨ s = "no".toList then
    some false
  else none

/-- The command-line parser of configuration.cpp:92
(`po::store(po::parse_command_line(argc, argv, options), vm)`), over the
option table of configuration.cpp:76-87.  A recognized switch sets its flag;
a recognized valued option consumes the following token as its value (a
missing or malformed value is an error, as `po::store` throws); any other
token is an unknown option and is an error.  Repeated `--config` occurrences
accumulate, and the first explicit occurrence replaces the default list. -/
def parseArgs : List Str → VarMap → Except Unit VarMap
  | [], vm => Except.ok vm
  | tok :: rest, vm =>
    if tok = "--help".toList ∨ tok = "-?".toList then
      parseArgs rest { vm with help := true }
    else if tok = "--version".toList ∨ tok = "-v".toList then
      parseArgs rest { vm with version := true }
    else if tok = "--host".toList ∨ tok = "-h".toList then
      match rest with
      | [] => Except.error ()
      | v :: rest2 => parseArgs rest2 { vm with host := ⟨v, true⟩ }
    else if tok = "--port".toList ∨ tok = "-p".toList then
      match rest with
      | [] => Except.error ()
      | v :: rest2 =>
        match parseIntTok v with
        | some n => parseArgs rest2 { vm with port := ⟨n, true⟩ }
        | none => Except.error ()
    else if tok = "--config".toList ∨ tok = "-c".toList then
      match rest with
      | [] => Except.error ()
      | v :: rest2 =>
        parseArgs rest2
          { vm with config :=
              ⟨(if vm.config.explicit then vm.config.value else []) ++ [v], true⟩ }
    else if tok = "--ignore-config-errors".toList then
      match rest with
      | [] => Except.error ()
      | v :: rest2 =>
        match parseBoolTok v with
        | some b => parseArgs rest2 { vm with ignoreConfigErrors := ⟨b, true⟩ }
        | none => Except.error ()
    else if tok = "--bindings".toList ∨ tok = "-b".toList then
      match rest with
      | [] => Except.error ()
      | v :: rest2 => parseArgs rest2 { vm with bindings := ⟨v, true⟩ }
    else if tok = "--screen".toList ∨ tok = "-s".toList then
      match rest with
      | [] => Except.error ()
      | v :: rest2 => parseArgs rest2 { vm with screen := some v }
    else if tok = "--slave-screen".toList ∨ tok = "-S".toList then
      match rest with
      | [] => Except.error ()
      | v :: rest2 => parseArgs rest2 { vm with slaveScreen := some v }
    else
      Except.error ()

/-- The environment snapshot consumed by `configure`: the four environment
variables the source reads (`HOME`, `XDG_CONFIG_HOME`, `MPD_HOST`,
`MPD_PORT`), each `none` when unset. -/
structure Env where
  home : Option Str
  xdgConfigHome : Option Str
  mpdHost : Option Str
  mpdPort : Option Str
deriving Repr, DecidableEq

/-- Modelled from the spec: the settings object produced by a successful
`Config.read` (the settings reader itself is not in src).  Per the spec the
configuration files produce the media-server host and port, the two
per-feature directories used at configuration.cpp:159 and 169-170, and the
connection timeout of configuration.cpp:187. -/
structure FileSettings where
  mpd_host : Str
  mpd_port : Int
  ncmpcpp_directory : Str
  lyrics_directory : Str
  mpd_connection_timeout : Int
deriving Repr, DecidableEq

/-- Startup screen identifier as used at configuration.cpp:193-194: either a
recognized screen, carrying its name, or `Unknown`. -/
inductive ScreenType where
  | screen (name : Str)
  | unknown
deriving Repr, DecidableEq

/-- Modelled from the spec: the fixed name-to-identifier table behind
`stringtoStartupScreenType` (screen_type.cpp is not in src).  The spec
guarantees that "playlist" is a recognized name; the full table lives in the
missing translation unit, and every theorem below quantifies over membership
in this list rather than relying on its completeness. -/
def screenNames : List Str := ["playlist".toList]

/-- Modelled from the spec: `stringtoStartupScreenType` maps a name through
the fixed table; a name outside the table yields `ScreenType.unknown`. -/
def stringtoStartupScreenType (s : Str) : ScreenType :=
  if s ∈ screenNames then ScreenType.screen s else ScreenType.unknown

/-- The comparison `== ScreenType::Unknown` of configuration.cpp:194/206. -/
def isUnknownScreen (s : Str) : Bool :=
  match stringtoStartupScreenType s with
  | ScreenType.unknown => true
  | ScreenType.screen _ => false

/-- Observable side effects of `configure`, in program order: the
configuration read of line 154, the bindings read of line 164, the default
bindings generation of line 166, and the directory creations of
lines 169-170. -/
inductive Event where
  | readConfig (paths : List Str) (ignoreErrors : Bool)
  | readBindings (path : Str)
  | genBindingsDefaults
  | createDir (dir : Str)
deriving Repr, DecidableEq

/-- Text written to stdout by `configure`: the help text of line 96 or the
version text of lines 101-139. -/
inductive OutMsg where
  | helpText
  | versionText
deriving Repr, DecidableEq

/-- How `configure` terminates: `return true` (startup continues),
`return false` (help/version or the missing-HOME branch), or `exit(n)`. -/
inductive Outcome where
  | retTrue
  | retFalse
  | exited (code : Nat)
deriving Repr, DecidableEq

/-- The observable result of a `configure` run: how it terminated, the side
effects it performed in order, the text it wrote, the media-server
connection parameters as last set on the `Mpd` object, and the path handed
to the bindings loader (when that stage was reached). -/
structure ConfigureResult where
  outcome : Outcome
  events : List Event
  stdout : List OutMsg
  stderr : List Str
  mpdHost : Str
  mpdPort : Int
  bindingsPathUsed : Option Str
deriving Repr, DecidableEq

/-- Configuration.cpp:202-211: the slave startup screen check, returning
the diagnostic written before `exit(1)` when the name is unknown, `none`
when the check passes. -/
def slaveScreenCheck (vm : VarMap) : Option Str :=
  match vm.slaveScreen with
  | some s =>
    if isUnknownScreen s then some ("Unknown slave screen: ".toList ++ s) else none
  | none => none

/-- Configuration.cpp:190-211: the primary startup screen check followed by
the slave one, returning the diagnostic of the first failing check, `none`
when both pass. -/
def screenChecks (vm : VarMap) : Option Str :=
  match vm.screen with
  | some s =>
    if isUnknownScreen s then some ("Unknown screen: ".toList ++ s)
    else slaveScreenCheck vm
  | none => slaveScreenCheck vm

/-- Final stage, configuration.cpp:189-218: run the two screen checks; a
failing check writes its diagnostic and exits with status 1, otherwise
`configure` returns true. -/
def screenStage (vm : VarMap) (ev : List Event) (bp host : Str) (port : Int) :
    ConfigureResult :=
  match screenChecks vm with
  | some msg =>
    { outcome := Outcome.exited 1, events := ev, stdout := [], stderr := [msg],
      mpdHost := host, mpdPort := port, bindingsPathUsed := some bp }
  | none =>
    { outcome := Outcome.retTrue, events := ev, stdout := [], stderr := [],
      mpdHost := host, mpdPort := port, bindingsPathUsed := some bp }

/-- Configuration.cpp:181-186: overlay explicitly supplied `--host`/`--port`
values (the `defaulted()` checks) over the value inherited from the
environment or the configuration files. -/
def cmdlineOverlay (vm : VarMap) (ev : List Event) (bp host1 : Str) (port1 : Int) :
    ConfigureResult :=
  let host2 := if vm.host.explicit then vm.host.value else host1
  let port2 := if vm.port.explicit then vm.port.value else port1
  screenStage vm ev bp host2 port2

/-- Configuration.cpp:174-177: the hostname after the environment overlay —
`MPD_HOST` when set, the file-derived hostname otherwise. -/
def envHostValue (env : Env) (fs : FileSettings) : Str :=
  match env.mpdHost with
  | some h => h
  | none => fs.mpd_host

/-- Configuration.cpp:175-179: the port after the environment overlay —
`boost::lexical_cast<int>(MPD_PORT)` when `MPD_PORT` is set (`none` when the
cast throws), the file-derived port otherwise. -/
def envPortValue (env : Env) (fs : FileSettings) : Option Int :=
  match env.mpdPort with
  | some p => parseIntTok p
  | none => some fs.mpd_port

/-- Configuration.cpp:172-179: overlay `MPD_HOST`/`MPD_PORT` from the
environment over the file-derived connection values; a set but
non-numeric `MPD_PORT` makes `boost::lexical_cast<int>` throw, which the
catch block of lines 213-217 turns into `exit(1)`. -/
def envOverlay (env : Env) (vm : VarMap) (fs : FileSettings) (ev : List Event)
    (bp : Str) : ConfigureResult :=
  match envPortValue env fs with
  | some n => cmdlineOverlay vm ev bp (envHostValue env fs) n
  | none =>
    { outcome := Outcome.exited 1, events := ev, stdout := [],
      stderr := ["Error while processing configuration".toList],
      mpdHost := envHostValue env fs, mpdPort := fs.mpd_port,
      bindingsPathUsed := some bp }

/-- Configuration.cpp:157-161: the bindings-file path handed to
`Bindings.read` — derived from `Config.ncmpcpp_directory` when `--bindings`
was left at its default (`vm["bindings"].defaulted()`), and `~`-expanded
otherwise. -/
def resolvedBindingsPath (vm : VarMap) (home : Str) (fs : FileSettings) : Str :=
  if vm.bindings.explicit then expand_home home vm.bindings.value
  else fs.ncmpcpp_directory ++ "bindings".toList

/-- Configuration.cpp:152-179 after the home directory is resolved: expand
and read the configuration files (a failed read is `exit(1)`), resolve the
bindings path, read the bindings (a failed read is `exit(1)`), generate
default bindings, create the two directories, then overlay the connection
parameters.  `fileResult`/`bindingsOk` stand for the return values of the
external readers `Config.read`/`Bindings.read`. -/
def afterHome (env : Env) (vm : VarMap) (home : Str)
    (fileResult : Option FileSettings) (bindingsOk : Bool) : ConfigureResult :=
  let configPaths := vm.config.value.map (expand_home home)
  let ev1 := [Event.readConfig configPaths vm.ignoreConfigErrors.value]
  match fileResult with
  | none =>
    { outcome := Outcome.exited 1, events := ev1, stdout := [], stderr := [],
      mpdHost := "localhost".toList, mpdPort := 6600, bindingsPathUsed := none }
  | some fs =>
    let bp := resolvedBindingsPath vm home fs
    let ev2 := ev1 ++ [Event.readBindings bp]
    if bindingsOk then
      let ev3 := ev2 ++ [Event.genBindingsDefaults,
                         Event.createDir fs.ncmpcpp_directory,
                         Event.createDir fs.lyrics_directory]
      envOverlay env vm fs ev3 bp
    else
      { outcome := Outcome.exited 1, events := ev2, stdout := [], stderr := [],
        mpdHost := fs.mpd_host, mpdPort := fs.mpd_port,
        bindingsPathUsed := some bp }

/-- Translation of `configure`, configuration.cpp:66-219.  Command-line
parsing runs
first and a parse failure is caught and turned into `exit(1)`
(lines 213-217); `--help` and then `--version` short-circuit with
`return false` before anything else; a missing `HOME` prints a diagnostic
and also does `return false` (lines 145-150); everything after that is
`afterHome`. -/
def configure (env : Env) (args : List Str) (fileResult : Option FileSettings)
    (bindingsOk : Bool) : ConfigureResult :=
  match parseArgs args (defaultVarMap env.xdgConfigHome) with
  | Except.error _ =>
    { outcome := Outcome.exited 1, events := [], stdout := [],
      stderr := ["Error while processing configuration".toList],
      mpdHost := "localhost".toList, mpdPort := 6600, bindingsPathUsed := none }
  | Except.ok vm =>
    if vm.help then
      { outcome := Outcome.retFalse, events := [], stdout := [OutMsg.helpText],
        stderr := [], mpdHost := "localhost".toList, mpdPort := 6600,
        bindingsPathUsed := none }
    else if vm.version then
      { outcome := Outcome.retFalse, events := [], stdout := [OutMsg.versionText],
        stderr := [], mpdHost := "localhost".toList, mpdPort := 6600,
        bindingsPathUsed := none }
    else
      match env.home with
      | none =>
        { outcome := Outcome.retFalse, events := [], stdout := [],
          stderr := ["Fatal error: HOME environment variable is not defined".toList],
          mpdHost := "localhost".toList, mpdPort := 6600,
          bindingsPathUsed := none }
      | some home => afterHome env vm home fileResult bindingsOk

/-- Modelled from the spec: the process-level exit status produced by the
caller of `configure` (`main` is not in src).  Per the spec, `exit(n)`
inside `configure` is the process status; a `false` return is the
"terminate normally, no further processing" signal of the help/version
short-circuit, which the caller maps to the success status 0; a `true`
return hands off to the rest of the application (status 0 on a successful
run). -/
def processExit (r : ConfigureResult) : Nat :=
  match r.outcome with
  | Outcome.exited n => n
  | Outcome.retFalse => 0
  | Outcome.retTrue => 0

/-- The event list of a run that passes the configuration read and the
bindings read (configuration.cpp:152-170), in program order. -/
def happyEvents (vm : VarMap) (home : Str) (fs : FileSettings) : List Event :=
  [Event.readConfig (vm.config.value.map (expand_home home))
     vm.ignoreConfigErrors.value,
   Event.readBindings (resolvedBindingsPath vm home fs),
   Event.genBindingsDefaults,
   Event.createDir fs.ncmpcpp_directory,
   Event.createDir fs.lyrics_directory]

/-- Follows the spec's words (§4.3 step 4-5, §8): the per-setting precedence
chain default < configuration file < environment < explicit command line,
stated for the host — the explicitly supplied `--host` value if any,
otherwise the `MPD_HOST` environment value if set, otherwise the value the
configuration files produced. -/
def specHostResolution (vm : VarMap) (env : Env) (fs : FileSettings) : Str :=
  if vm.host.explicit then vm.host.value
  else
    match env.mpdHost with
    | some h => h
    | none => fs.mpd_host

/-- Follows the spec's words (§4.3 step 4-5, §8): the per-setting precedence
chain default < configuration file < environment < explicit command line,
stated for the port — the explicitly supplied `--port` value if any,
otherwise the numeric value of `MPD_PORT` if set, otherwise the value the
configuration files produced. -/
def specPortResolution (vm : VarMap) (env : Env) (fs : FileSettings) : Option Int :=
  if vm.port.explicit then some vm.port.value
  else
    match env.mpdPort with
    | some p => parseIntTok p
    | none => some fs.mpd_port

/-- Recognizer for the bindings-read event, used to state event ordering. -/
def isReadBindingsEvent : Event → Bool
  | Event.readBindings _ => true
  | _ => false

/-- Recognizer for a directory-creation event, used to state event
ordering. -/
def isCreateDirEvent : Event → Bool
  | Event.createDir _ => true
  | _ => false

def exampleFS : FileSettings :=
  { mpd_host := "filehost".toList, mpd_port := 6601,
    ncmpcpp_directory := "/home/u/.ncmpcpp/".toList,
    lyrics_directory := "/home/u/.lyrics/".toList,
    mpd_connection_timeout := 5 }

example :
    (configure ⟨some "/home/u".toList, none, none, some "7000".toList⟩
      ["--port".toList, "8000".toList] (some exampleFS) true).mpdPort = 8000 := by
  decide

example :
    (configure ⟨some "/home/u".toList, none, none, some "7000".toList⟩
      [] (some exampleFS) true).mpdPort = 7000 := by
  decide

example :
    (configure ⟨some "/home/u".toList, none, none, none⟩
      [] (some exampleFS) true).events =
    [Event.readConfig ["/home/u/.ncmpcpp/config".toList,
                       "/home/u/.config/ncmpcpp/config".toList] false,
     Event.readBindings "/home/u/.ncmpcpp/bindings".toList,
     Event.genBindingsDefaults,
     Event.createDir "/home/u/.ncmpcpp/".toList,
     Event.createDir "/home/u/.lyrics/".toList] := by
  decide

/-- The screen-validation stage never modifies the event list. -/
theorem screenStage_events (vm : VarMap) (ev : List Event) (bp host : Str)
    (port : Int) : (screenStage vm ev bp host port).events = ev := by
  unfold screenStage
  cases screenChecks vm <;> rfl

/-- The screen-validation stage never modifies the hostname. -/
theorem screenStage_mpdHost (vm : VarMap) (ev : List Event) (bp host : Str)
    (port : Int) : (screenStage vm ev bp host port).mpdHost = host := by
  unfold screenStage
  cases screenChecks vm <;> rfl

/-- The screen-validation stage never modifies the port. -/
theorem screenStage_mpdPort (vm : VarMap) (ev : List Event) (bp host : Str)
    (port : Int) : (screenStage vm ev bp host port).mpdPort = port := by
  unfold screenStage
  cases screenChecks vm <;> rfl

/-- The screen-validation stage never modifies the recorded bindings path. -/
theorem screenStage_bindingsPathUsed (vm : VarMap) (ev : List Event)
    (bp host : Str) (port : Int) :
    (screenStage vm ev bp host port).bindingsPathUsed = some bp := by
  unfold screenStage
  cases screenChecks vm <;> rfl

/-- The screen-validation stage writes nothing to stdout. -/
theorem screenStage_stdout (vm : VarMap) (ev : List Event) (bp host : Str)
    (port : Int) : (screenStage vm ev bp host port).stdout = [] := by
  unfold screenStage
  cases screenChecks vm <;> rfl

/-- The command-line overlay of configuration.cpp:181-186, written out: the
`defaulted()` checks select between the explicitly supplied flag value and
the value inherited from the earlier stages. -/
theorem cmdlineOverlay_eq (vm : VarMap) (ev : List Event) (bp host1 : Str)
    (port1 : Int) :
    cmdlineOverlay vm ev bp host1 port1 =
      screenStage vm ev bp (if vm.host.explicit then vm.host.value else host1)
        (if vm.port.explicit then vm.port.value else port1) := rfl

/-- The environment overlay when `MPD_PORT` is unset or numeric. -/
theorem envOverlay_ok (env : Env) (vm : VarMap) (fs : FileSettings)
    (ev : List Event) (bp : Str) (n : Int) (hp : envPortValue env fs = some n) :
    envOverlay env vm fs ev bp = cmdlineOverlay vm ev bp (envHostValue env fs) n := by
  unfold envOverlay
  rw [hp]

/-- A `configure` run after a successful parse with neither help nor version
requested and `HOME` resolved: the run is `afterHome`. -/
theorem configure_resolved (env : Env) (args : List Str)
    (fr : Option FileSettings) (bk : Bool) (vm : VarMap) (home : Str)
    (hparse : parseArgs args (defaultVarMap env.xdgConfigHome) = Except.ok vm)
    (hhelp : vm.help = false) (hver : vm.version = false)
    (hhome : env.home = some home) :
    configure env args fr bk = afterHome env vm home fr bk := by
  unfold configure
  rw [hparse]
  simp [hhelp, hver, hhome]

/-- A run that passes the configuration read and the bindings read reduces
to the environment overlay over the happy-path event list. -/
theorem configure_happy (env : Env) (args : List Str) (fs : FileSettings)
    (vm : VarMap) (home : Str)
    (hparse : parseArgs args (defaultVarMap env.xdgConfigHome) = Except.ok vm)
    (hhelp : vm.help = false) (hver : vm.version = false)
    (hhome : env.home = some home) :
    configure env args (some fs) true =
      envOverlay env vm fs (happyEvents vm home fs)
        (resolvedBindingsPath vm home fs) := by
  rw [configure_resolved env args (some fs) true vm home hparse hhelp hver hhome]
  rfl

/-- The environment overlay never modifies the event list. -/
theorem envOverlay_events (env : Env) (vm : VarMap) (fs : FileSettings)
    (ev : List Event) (bp : Str) : (envOverlay env vm fs ev bp).events = ev := by
  unfold envOverlay
  cases envPortValue env fs
  · rfl
  · dsimp only
    rw [cmdlineOverlay_eq, screenStage_events]

/-- The environment overlay preserves the recorded bindings path. -/
theorem envOverlay_bindingsPathUsed (env : Env) (vm : VarMap)
    (fs : FileSettings) (ev : List Event) (bp : Str) :
    (envOverlay env vm fs ev bp).bindingsPathUsed = some bp := by
  unfold envOverlay
  cases envPortValue env fs
  · rfl
  · dsimp only
    rw [cmdlineOverlay_eq, screenStage_bindingsPathUsed]

/-- A name outside the table is mapped to `Unknown`. -/
theorem isUnknownScreen_of_not_mem (s : Str) (h : s ∉ screenNames) :
    isUnknownScreen s = true := by
  unfold isUnknownScreen stringtoStartupScreenType
  simp [h]

/-- A name in the table is recognized. -/
theorem isUnknownScreen_of_mem (s : Str) (h : s ∈ screenNames) :
    isUnknownScreen s = false := by
  unfold isUnknownScreen stringtoStartupScreenType
  simp [h]

/-- An unrecognized primary screen name fails the screen checks with the
diagnostic naming it. -/
theorem screenChecks_unknown_primary (vm : VarMap) (s : Str)
    (hs : vm.screen = some s) (h : s ∉ screenNames) :
    screenChecks vm = some ("Unknown screen: ".toList ++ s) := by
  unfold screenChecks
  rw [hs]
  simp [isUnknownScreen_of_not_mem s h]

/-- With a passing (or absent) primary screen, an unrecognized slave screen
name fails the screen checks with the diagnostic naming it. -/
theorem screenChecks_unknown_slave (vm : VarMap) (s : Str)
    (hps : vm.screen = none ∨ ∃ t, vm.screen = some t ∧ t ∈ screenNames)
    (hs : vm.slaveScreen = some s) (h : s ∉ screenNames) :
    screenChecks vm = some ("Unknown slave screen: ".toList ++ s) := by
  unfold screenChecks slaveScreenCheck
  rcases hps with hnone | ⟨t, ht, htmem⟩
  · rw [hnone, hs]
    simp [isUnknownScreen_of_not_mem s h]
  · rw [ht, hs]
    simp [isUnknownScreen_of_mem t htmem, isUnknownScreen_of_not_mem s h]

/-- Recognized (or absent) screen names pass both screen checks. -/
theorem screenChecks_ok (vm : VarMap)
    (hps : vm.screen = none ∨ ∃ t, vm.screen = some t ∧ t ∈ screenNames)
    (hss : vm.slaveScreen = none ∨ ∃ t, vm.slaveScreen = some t ∧ t ∈ screenNames) :
    screenChecks vm = none := by
  unfold screenChecks slaveScreenCheck
  have hslave :
      (match vm.slaveScreen with
        | some s =>
          if isUnknownScreen s then some ("Unknown slave screen: ".toList ++ s)
          else none
        | none => (none : Option Str)) = none := by
    rcases hss with hnone | ⟨t, ht, htmem⟩
    · rw [hnone]
    · rw [ht]
      simp [isUnknownScreen_of_mem t htmem]
  rcases hps with hnone | ⟨t, ht, htmem⟩
  · rw [hnone]
    exact hslave
  · rw [ht]
    simp only [isUnknownScreen_of_mem t htmem]
    simpa using hslave

/-- C8 counterexample: with the home directory resolved to the value `"~a"`
(which the code nowhere forbids), re-running expansion on the
already-expanded path `expand_home "~a" "~b" = "~ab"` is not a no-op: it
yields `"~aab"`.  So idempotence under the sole precondition "the home
directory has been resolved" is false. -/
theorem C8_counterexample :
    expand_home "~a".toList (expand_home "~a".toList "~b".toList) ≠
      expand_home "~a".toList "~b".toList := by
  decide

/-- C8 (amended): expansion leaves every path not starting with `'~'`
unchanged, and re-running expansion on an already-expanded path is a no-op
provided the resolved home directory is non-empty and does not itself start
with `'~'`. -/
theorem C8_expand_home_idempotent (env_home : Str) :
    (∀ path, path.head? ≠ some '~' → expand_home env_home path = path) ∧
    (env_home ≠ [] → env_home.head? ≠ some '~' →
      ∀ path, expand_home env_home (expand_home env_home path) =
        expand_home env_home path) := by
  constructor
  · intro path h
    cases path with
    | nil => rfl
    | cons c r =>
      have hc : ¬ c = '~' := by
        intro he
        exact h (by simp [he])
      simp [expand_home, hc]
  · intro hne hh path
    obtain ⟨c0, t, rfl⟩ : ∃ c0 t, env_home = c0 :: t := by
      cases env_home with
      | nil => exact absurd rfl hne
      | cons c0 t => exact ⟨c0, t, rfl⟩
    have hc0 : ¬ c0 = '~' := by
      intro he
      exact hh (by simp [he])
    cases path with
    | nil => rfl
    | cons c r =>
      by_cases hc : c = '~'
      · simp [expand_home, hc, hc0]
      · simp [expand_home, hc]

/-- C8 witness: instancing the amended theorem at home `"/h"` and the
already-once-expanded path of `"~x"`. -/
theorem C8_expand_home_idempotent_witness :
    expand_home "/h".toList (expand_home "/h".toList "~x".toList) =
      expand_home "/h".toList "~x".toList :=
  (C8_expand_home_idempotent "/h".toList).2 (by decide) (by decide) "~x".toList

/-- C9: home expansion replaces exactly the single leading `'~'` and nothing
else: for every path of the form `'~' :: rest` — whatever `rest` is,
including forms like `"~user/x"` — the result is the home directory followed
by `rest`; every path whose first character is not `'~'` (in particular the
empty path, and paths with `'~'` in a later position) is left untouched. -/
theorem C9_expand_home_exact (env_home : Str) :
    (∀ rest, expand_home env_home ('~' :: rest) = env_home ++ rest) ∧
    (∀ path, path.head? ≠ some '~' → expand_home env_home path = path) := by
  constructor
  · intro rest
    simp [expand_home]
  · intro path h
    cases path with
    | nil => rfl
    | cons c r =>
      have hc : ¬ c = '~' := by
        intro he
        exact h (by simp [he])
      simp [expand_home, hc]

/-- C9 witness: `"~user/x"` expands to home ++ `"user/x"`, and `"a~b"` and
`""` are untouched. -/
theorem C9_expand_home_exact_witness :
    expand_home "/h".toList "~user/x".toList = "/h".toList ++ "user/x".toList ∧
    expand_home "/h".toList "a~b".toList = "a~b".toList := by
  constructor
  · exact (C9_expand_home_exact "/h".toList).1 "user/x".toList
  · exact (C9_expand_home_exact "/h".toList).2 "a~b".toList (by decide)

/-- C10: `--help` takes precedence over `--version` — on any argument
vector whose parse sets both switches, only the help text is printed,
`configure` terminates normally (`return false` at configuration.cpp:97),
and the version text is never printed. -/
theorem C10_help_over_version (env : Env) (args : List Str)
    (fr : Option FileSettings) (bk : Bool) (vm : VarMap)
    (hparse : parseArgs args (defaultVarMap env.xdgConfigHome) = Except.ok vm)
    (hhelp : vm.help = true) (hver : vm.version = true) :
    (configure env args fr bk).stdout = [OutMsg.helpText] ∧
    (configure env args fr bk).outcome = Outcome.retFalse ∧
    OutMsg.versionText ∉ (configure env args fr bk).stdout := by
  have hc : configure env args fr bk =
      { outcome := Outcome.retFalse, events := [], stdout := [OutMsg.helpText],
        stderr := [], mpdHost := "localhost".toList, mpdPort := 6600,
        bindingsPathUsed := none } := by
    unfold configure
    rw [hparse]
    simp [hhelp]
  rw [hc]
  refine ⟨rfl, rfl, by simp⟩

/-- C10 witness: the vector `["--help", "--version"]` prints only the help
text. -/
theorem C10_help_over_version_witness :
    (configure ⟨some "/home/u".toList, none, none, none⟩
        ["--help".toList, "--version".toList] (some exampleFS) true).stdout =
      [OutMsg.helpText] ∧
    (configure ⟨some "/home/u".toList, none, none, none⟩
        ["--help".toList, "--version".toList] (some exampleFS) true).outcome =
      Outcome.retFalse ∧
    OutMsg.versionText ∉
      (configure ⟨some "/home/u".toList, none, none, none⟩
        ["--help".toList, "--version".toList] (some exampleFS) true).stdout :=
  C10_help_over_version ⟨some "/home/u".toList, none, none, none⟩
    ["--help".toList, "--version".toList] (some exampleFS) true
    { defaultVarMap none with help := true, version := true } rfl rfl rfl

/-- C2: at the failing input (`HOME` unset, empty argument vector) the code
prints the fatal diagnostic and stops before any configuration read — the
event list is empty — but it stops via `return false`
(configuration.cpp:149), the very signal the help/version short-circuit
uses, so the process exit status is the help status 0, not 1 as the claim
and every other fatal path (`exit(1)`) of the same function have it. -/
theorem C2_home_missing_behavior :
    (configure ⟨none, none, none, none⟩ [] (some exampleFS) true).outcome =
      Outcome.retFalse ∧
    (configure ⟨none, none, none, none⟩ [] (some exampleFS) true).events = [] ∧
    (configure ⟨none, none, none, none⟩ [] (some exampleFS) true).stderr =
      ["Fatal error: HOME environment variable is not defined".toList] ∧
    processExit (configure ⟨none, none, none, none⟩ [] (some exampleFS) true) =
      processExit (configure ⟨none, none, none, none⟩ ["--help".toList]
        (some exampleFS) true) ∧
    processExit (configure ⟨none, none, none, none⟩ [] (some exampleFS) true) =
      0 := by
  decide

/-- C4 counterexample: the argument vector `["--port", "x", "--help"]`
contains `--help`, yet startup does not terminate normally with status 0:
the parse of the malformed port value throws before the help check
(configuration.cpp:92 versus 94), the catch block exits with status 1, and
no help text is printed. -/
theorem C4_counterexample :
    (configure ⟨some "/home/u".toList, none, none, none⟩
        ["--port".toList, "x".toList, "--help".toList] (some exampleFS)
        true).outcome = Outcome.exited 1 ∧
    OutMsg.helpText ∉
      (configure ⟨some "/home/u".toList, none, none, none⟩
        ["--port".toList, "x".toList, "--help".toList] (some exampleFS)
        true).stdout ∧
    processExit (configure ⟨some "/home/u".toList, none, none, none⟩
        ["--port".toList, "x".toList, "--help".toList] (some exampleFS) true) =
      1 := by
  decide

/-- C4 (amended): for every argument vector that parses successfully and
sets the help (resp. version) switch, startup terminates normally with exit
status 0 after printing the help (resp. version) text, with no
configuration-file read, no directory creation and no bindings load — the
event list is empty, every later stage is skipped, and the short-circuit is
evaluated before all processing other than command-line parsing itself. -/
theorem C4_help_version_short_circuit (env : Env) (args : List Str)
    (fr : Option FileSettings) (bk : Bool) (vm : VarMap)
    (hparse : parseArgs args (defaultVarMap env.xdgConfigHome) = Except.ok vm) :
    (vm.help = true →
      configure env args fr bk =
        { outcome := Outcome.retFalse, events := [], stdout := [OutMsg.helpText],
          stderr := [], mpdHost := "localhost".toList, mpdPort := 6600,
          bindingsPathUsed := none } ∧
      processExit (configure env args fr bk) = 0) ∧
    (vm.help = false → vm.version = true →
      configure env args fr bk =
        { outcome := Outcome.retFalse, events := [],
          stdout := [OutMsg.versionText], stderr := [],
          mpdHost := "localhost".toList, mpdPort := 6600,
          bindingsPathUsed := none } ∧
      processExit (configure env args fr bk) = 0) := by
  constructor
  · intro hh
    have hc : configure env args fr bk =
        { outcome := Outcome.retFalse, events := [],
          stdout := [OutMsg.helpText], stderr := [],
          mpdHost := "localhost".toList, mpdPort := 6600,
          bindingsPathUsed := none } := by
      unfold configure
      rw [hparse]
      simp [hh]
    exact ⟨hc, by rw [hc]; rfl⟩
  · intro hh hv
    have hc : configure env args fr bk =
        { outcome := Outcome.retFalse, events := [],
          stdout := [OutMsg.versionText], stderr := [],
          mpdHost := "localhost".toList, mpdPort := 6600,
          bindingsPathUsed := none } := by
      unfold configure
      rw [hparse]
      simp [hh, hv]
    exact ⟨hc, by rw [hc]; rfl⟩

/-- C4 witness: `["--help"]` and `["--version"]` short-circuit with no
events and exit status 0. -/
theorem C4_help_version_short_circuit_witness :
    (configure ⟨some "/home/u".toList, none, none, none⟩ ["--help".toList]
        (some exampleFS) true =
      { outcome := Outcome.retFalse, events := [], stdout := [OutMsg.helpText],
        stderr := [], mpdHost := "localhost".toList, mpdPort := 6600,
        bindingsPathUsed := none } ∧
     processExit (configure ⟨some "/home/u".toList, none, none, none⟩
        ["--help".toList] (some exampleFS) true) = 0) ∧
    (configure ⟨some "/home/u".toList, none, none, none⟩ ["--version".toList]
        (some exampleFS) true =
      { outcome := Outcome.retFalse, events := [],
        stdout := [OutMsg.versionText], stderr := [],
        mpdHost := "localhost".toList, mpdPort := 6600,
        bindingsPathUsed := none } ∧
     processExit (configure ⟨some "/home/u".toList, none, none, none⟩
        ["--version".toList] (some exampleFS) true) = 0) :=
  ⟨(C4_help_version_short_circuit ⟨some "/home/u".toList, none, none, none⟩
      ["--help".toList] (some exampleFS) true
      { defaultVarMap none with help := true } rfl).1 rfl,
   (C4_help_version_short_circuit ⟨some "/home/u".toList, none, none, none⟩
      ["--version".toList] (some exampleFS) true
      { defaultVarMap none with version := true } rfl).2 rfl rfl⟩

/-- C3 counterexample: with `HOME` resolved, a successful configuration
read, and the bindings loader reporting failure, startup aborts via
`exit(1)` (configuration.cpp:164-165) and no default binding set is
generated — contradicting the claim that a bindings load failure does not
abort startup and populates defaults. -/
theorem C3_counterexample :
    (configure ⟨some "/home/u".toList, none, none, none⟩ [] (some exampleFS)
        false).outcome = Outcome.exited 1 ∧
    processExit (configure ⟨some "/home/u".toList, none, none, none⟩ []
        (some exampleFS) false) = 1 ∧
    Event.genBindingsDefaults ∉
      (configure ⟨some "/home/u".toList, none, none, none⟩ [] (some exampleFS)
        false).events := by
  decide

/-- C3 (amended): a failure reported by the key-bindings loader ABORTS
startup with exit status 1 and no default binding set is generated; the
default binding set is generated (by the unconditional
`Bindings.generateDefaults()` of configuration.cpp:166) only after a
successful bindings load, after which startup continues.  Graceful handling
of a merely missing file, if any, lives inside the loader, which must
report success for startup to proceed. -/
theorem C3_bindings_failure_fatal (env : Env) (args : List Str)
    (fs : FileSettings) (vm : VarMap) (home : Str)
    (hparse : parseArgs args (defaultVarMap env.xdgConfigHome) = Except.ok vm)
    (hhelp : vm.help = false) (hver : vm.version = false)
    (hhome : env.home = some home) :
    ((configure env args (some fs) false).outcome = Outcome.exited 1 ∧
     processExit (configure env args (some fs) false) = 1 ∧
     Event.genBindingsDefaults ∉ (configure env args (some fs) false).events) ∧
    Event.genBindingsDefaults ∈ (configure env args (some fs) true).events := by
  have hfail : configure env args (some fs) false =
      { outcome := Outcome.exited 1,
        events := [Event.readConfig (vm.config.value.map (expand_home home))
                     vm.ignoreConfigErrors.value,
                   Event.readBindings (resolvedBindingsPath vm home fs)],
        stdout := [], stderr := [], mpdHost := fs.mpd_host,
        mpdPort := fs.mpd_port,
        bindingsPathUsed := some (resolvedBindingsPath vm home fs) } := by
    rw [configure_resolved env args (some fs) false vm home hparse hhelp hver
      hhome]
    rfl
  refine ⟨⟨by rw [hfail], by rw [hfail]; rfl, by rw [hfail]; simp⟩, ?_⟩
  rw [configure_happy env args fs vm home hparse hhelp hver hhome,
    envOverlay_events]
  simp [happyEvents]

/-- C3 witness: instancing the amended theorem at a concrete run. -/
theorem C3_bindings_failure_fatal_witness :
    ((configure ⟨some "/home/u".toList, none, none, none⟩ [] (some exampleFS)
        false).outcome = Outcome.exited 1 ∧
     processExit (configure ⟨some "/home/u".toList, none, none, none⟩ []
        (some exampleFS) false) = 1 ∧
     Event.genBindingsDefaults ∉
       (configure ⟨some "/home/u".toList, none, none, none⟩ []
         (some exampleFS) false).events) ∧
    Event.genBindingsDefaults ∈
      (configure ⟨some "/home/u".toList, none, none, none⟩ []
        (some exampleFS) true).events :=
  C3_bindings_failure_fatal ⟨some "/home/u".toList, none, none, none⟩ []
    exampleFS (defaultVarMap none) "/home/u".toList rfl rfl rfl rfl

/-- C5 counterexample: on a concrete successful run, the bindings read is
event number 1 while the first directory creation is event number 3 — the
directories are created AFTER the bindings loader is invoked
(configuration.cpp:164 versus 169-170), so the claim that creation precedes
the bindings load fails at this input. -/
theorem C5_counterexample :
    (configure ⟨some "/home/u".toList, none, none, none⟩ [] (some exampleFS)
        true).events.findIdx? isReadBindingsEvent = some 1 ∧
    (configure ⟨some "/home/u".toList, none, none, none⟩ [] (some exampleFS)
        true).events.findIdx? isCreateDirEvent = some 3 ∧
    ¬ (3 : Nat) < 1 := by
  decide

/-- C5 (amended): the two required directories are created, if absent, on
every run that passes both reads — but AFTER the bindings loader has been
invoked with the resolved path and the defaults generated, not before: the
event list is exactly configuration read, bindings read, default-bindings
generation, then the two directory creations. -/
theorem C5_directories_after_bindings (env : Env) (args : List Str)
    (fs : FileSettings) (vm : VarMap) (home : Str)
    (hparse : parseArgs args (defaultVarMap env.xdgConfigHome) = Except.ok vm)
    (hhelp : vm.help = false) (hver : vm.version = false)
    (hhome : env.home = some home) :
    (configure env args (some fs) true).events =
      [Event.readConfig (vm.config.value.map (expand_home home))
         vm.ignoreConfigErrors.value,
       Event.readBindings (resolvedBindingsPath vm home fs),
       Event.genBindingsDefaults,
       Event.createDir fs.ncmpcpp_directory,
       Event.createDir fs.lyrics_directory] := by
  rw [configure_happy env args fs vm home hparse hhelp hver hhome,
    envOverlay_events]
  rfl

/-- C5 witness: the event order at a concrete run. -/
theorem C5_directories_after_bindings_witness :
    (configure ⟨some "/home/u".toList, none, none, none⟩ [] (some exampleFS)
        true).events =
      [Event.readConfig ["/home/u/.ncmpcpp/config".toList,
                         "/home/u/.config/ncmpcpp/config".toList] false,
       Event.readBindings "/home/u/.ncmpcpp/bindings".toList,
       Event.genBindingsDefaults,
       Event.createDir "/home/u/.ncmpcpp/".toList,
       Event.createDir "/home/u/.lyrics/".toList] := by
  rw [C5_directories_after_bindings ⟨some "/home/u".toList, none, none, none⟩
    [] exampleFS (defaultVarMap none) "/home/u".toList rfl rfl rfl rfl]
  decide

/-- C7: when the user did not explicitly pass `--bindings`
(`vm["bindings"].defaulted()`, configuration.cpp:158), the path handed to
the bindings loader is the resolved configuration directory with
`"bindings"` appended, not a literal fixed path; when `--bindings` was
explicitly passed, the supplied path is `~`-expanded like any other path. -/
theorem C7_bindings_path_resolution (env : Env) (args : List Str)
    (fs : FileSettings) (vm : VarMap) (home : Str) (bk : Bool)
    (hparse : parseArgs args (defaultVarMap env.xdgConfigHome) = Except.ok vm)
    (hhelp : vm.help = false) (hver : vm.version = false)
    (hhome : env.home = some home) :
    (vm.bindings.explicit = false →
      (configure env args (some fs) bk).bindingsPathUsed =
        some (fs.ncmpcpp_directory ++ "bindings".toList)) ∧
    (vm.bindings.explicit = true →
      (configure env args (some fs) bk).bindingsPathUsed =
        some (expand_home home vm.bindings.value)) := by
  have hbp : (configure env args (some fs) bk).bindingsPathUsed =
      some (resolvedBindingsPath vm home fs) := by
    cases bk
    · rw [configure_resolved env args (some fs) false vm home hparse hhelp hver
        hhome]
      rfl
    · rw [configure_happy env args fs vm home hparse hhelp hver hhome,
        envOverlay_bindingsPathUsed]
  constructor
  · intro h
    rw [hbp]
    simp [resolvedBindingsPath, h]
  · intro h
    rw [hbp]
    simp [resolvedBindingsPath, h]

/-- C7 witness: with no `--bindings` flag the loader gets the configuration
directory with "bindings" appended; with `--bindings ~/kb` it gets the
`~`-expanded supplied path. -/
theorem C7_bindings_path_resolution_witness :
    (configure ⟨some "/home/u".toList, none, none, none⟩ [] (some exampleFS)
        true).bindingsPathUsed =
      some (exampleFS.ncmpcpp_directory ++ "bindings".toList) ∧
    (configure ⟨some "/home/u".toList, none, none, none⟩
        ["--bindings".toList, "~/kb".toList] (some exampleFS)
        true).bindingsPathUsed =
      some (expand_home "/home/u".toList "~/kb".toList) :=
  ⟨(C7_bindings_path_resolution ⟨some "/home/u".toList, none, none, none⟩ []
      exampleFS (defaultVarMap none) "/home/u".toList true rfl rfl rfl rfl).1
      rfl,
   (C7_bindings_path_resolution ⟨some "/home/u".toList, none, none, none⟩
      ["--bindings".toList, "~/kb".toList] exampleFS
      { defaultVarMap none with bindings := ⟨"~/kb".toList, true⟩ }
      "/home/u".toList true rfl rfl rfl rfl).2 rfl⟩

/-- C1: on a run that reaches the connection-parameter overlay (parse
succeeded, no help/version, `HOME` resolved, both reads succeeded, and
`MPD_PORT` — when set — is numeric), the host and port on the `Mpd` object
are exactly the spec's per-setting precedence chain default < configuration
file < environment < explicit command line: an explicitly supplied
`--host`/`--port` wins over everything; otherwise a set `MPD_HOST`/
`MPD_PORT` wins over whatever the configuration files produced. -/
theorem C1_host_port_precedence (env : Env) (args : List Str)
    (fs : FileSettings) (vm : VarMap) (home : Str) (n : Int)
    (hparse : parseArgs args (defaultVarMap env.xdgConfigHome) = Except.ok vm)
    (hhelp : vm.help = false) (hver : vm.version = false)
    (hhome : env.home = some home)
    (hport : envPortValue env fs = some n) :
    (configure env args (some fs) true).mpdHost =
      specHostResolution vm env fs ∧
    some (configure env args (some fs) true).mpdPort =
      specPortResolution vm env fs := by
  rw [configure_happy env args fs vm home hparse hhelp hver hhome,
    envOverlay_ok env vm fs _ _ n hport, cmdlineOverlay_eq]
  constructor
  · rw [screenStage_mpdHost]
    unfold specHostResolution envHostValue
    by_cases hh : vm.host.explicit <;> simp [hh]
  · rw [screenStage_mpdPort]
    unfold specPortResolution
    by_cases hp : vm.port.explicit
    · simp [hp]
    · simp [hp]
      exact hport.symm

/-- C1 witness: `--port 8000` with `MPD_PORT=7000` resolves to port 8000
(command line wins), while the host — no `--host` flag — resolves to the
`MPD_HOST` value "envhost" overriding the file-derived "filehost". -/
theorem C1_host_port_precedence_witness :
    ((configure ⟨some "/home/u".toList, none, some "envhost".toList,
        some "7000".toList⟩ ["--port".toList, "8000".toList] (some exampleFS)
        true).mpdHost =
      specHostResolution { defaultVarMap none with port := ⟨8000, true⟩ }
        ⟨some "/home/u".toList, none, some "envhost".toList,
          some "7000".toList⟩ exampleFS ∧
     some (configure ⟨some "/home/u".toList, none, some "envhost".toList,
        some "7000".toList⟩ ["--port".toList, "8000".toList] (some exampleFS)
        true).mpdPort =
      specPortResolution { defaultVarMap none with port := ⟨8000, true⟩ }
        ⟨some "/home/u".toList, none, some "envhost".toList,
          some "7000".toList⟩ exampleFS) ∧
    (configure ⟨some "/home/u".toList, none, some "envhost".toList,
        some "7000".toList⟩ ["--port".toList, "8000".toList] (some exampleFS)
        true).mpdPort = 8000 ∧
    (configure ⟨some "/home/u".toList, none, some "envhost".toList,
        some "7000".toList⟩ ["--port".toList, "8000".toList] (some exampleFS)
        true).mpdHost = "envhost".toList :=
  ⟨C1_host_port_precedence
      ⟨some "/home/u".toList, none, some "envhost".toList, some "7000".toList⟩
      ["--port".toList, "8000".toList] exampleFS
      { defaultVarMap none with port := ⟨8000, true⟩ } "/home/u".toList 7000
      rfl rfl rfl rfl rfl,
    by decide, by decide⟩

/-- C6: on a run that reaches the screen validation, a `--screen`
(resp. `--slave-screen`) name outside the fixed table fails startup with the
diagnostic "Unknown screen: <name>" (resp. "Unknown slave screen: <name>")
— naming the offending string and which of the two screens it was — and
exit status 1; recognized names (the table contains "playlist") yield no
error and startup returns normally. -/
theorem C6_screen_validation (env : Env) (args : List Str) (fs : FileSettings)
    (vm : VarMap) (home : Str) (n : Int)
    (hparse : parseArgs args (defaultVarMap env.xdgConfigHome) = Except.ok vm)
    (hhelp : vm.help = false) (hver : vm.version = false)
    (hhome : env.home = some home)
    (hport : envPortValue env fs = some n) :
    (∀ s, vm.screen = some s → s ∉ screenNames →
      (configure env args (some fs) true).outcome = Outcome.exited 1 ∧
      processExit (configure env args (some fs) true) = 1 ∧
      ("Unknown screen: ".toList ++ s) ∈
        (configure env args (some fs) true).stderr) ∧
    (∀ s, (vm.screen = none ∨ ∃ t, vm.screen = some t ∧ t ∈ screenNames) →
      vm.slaveScreen = some s → s ∉ screenNames →
      (configure env args (some fs) true).outcome = Outcome.exited 1 ∧
      processExit (configure env args (some fs) true) = 1 ∧
      ("Unknown slave screen: ".toList ++ s) ∈
        (configure env args (some fs) true).stderr) ∧
    ((vm.screen = none ∨ ∃ t, vm.screen = some t ∧ t ∈ screenNames) →
     (vm.slaveScreen = none ∨ ∃ t, vm.slaveScreen = some t ∧ t ∈ screenNames) →
      (configure env args (some fs) true).outcome = Outcome.retTrue ∧
      (configure env args (some fs) true).stderr = []) := by
  have hred : configure env args (some fs) true =
      screenStage vm (happyEvents vm home fs) (resolvedBindingsPath vm home fs)
        (if vm.host.explicit then vm.host.value else envHostValue env fs)
        (if vm.port.explicit then vm.port.value else n) := by
    rw [configure_happy env args fs vm home hparse hhelp hver hhome,
      envOverlay_ok env vm fs _ _ n hport, cmdlineOverlay_eq]
  rw [hred]
  refine ⟨?_, ?_, ?_⟩
  · intro s hs hmem
    unfold screenStage
    rw [screenChecks_unknown_primary vm s hs hmem]
    exact ⟨rfl, rfl, by simp⟩
  · intro s hps hs hmem
    unfold screenStage
    rw [screenChecks_unknown_slave vm s hps hs hmem]
    exact ⟨rfl, rfl, by simp⟩
  · intro hps hss
    unfold screenStage
    rw [screenChecks_ok vm hps hss]
    exact ⟨rfl, rfl⟩

/-- C6 witness: `--screen bogus` exits with status 1 naming "bogus" as the
unknown primary screen; `--screen playlist` yields no error. -/
theorem C6_screen_validation_witness :
    ((configure ⟨some "/home/u".toList, none, none, none⟩
        ["--screen".toList, "bogus".toList] (some exampleFS) true).outcome =
      Outcome.exited 1 ∧
     processExit (configure ⟨some "/home/u".toList, none, none, none⟩
        ["--screen".toList, "bogus".toList] (some exampleFS) true) = 1 ∧
     ("Unknown screen: ".toList ++ "bogus".toList) ∈
       (configure ⟨some "/home/u".toList, none, none, none⟩
         ["--screen".toList, "bogus".toList] (some exampleFS) true).stderr) ∧
    ((configure ⟨some "/home/u".toList, none, none, none⟩
        ["--screen".toList, "playlist".toList] (some exampleFS) true).outcome =
      Outcome.retTrue ∧
     (configure ⟨some "/home/u".toList, none, none, none⟩
        ["--screen".toList, "playlist".toList] (some exampleFS) true).stderr =
      []) :=
  ⟨(C6_screen_validation ⟨some "/home/u".toList, none, none, none⟩
      ["--screen".toList, "bogus".toList] exampleFS
      { defaultVarMap none with screen := some "bogus".toList }
      "/home/u".toList 6601 rfl rfl rfl rfl rfl).1 "bogus".toList rfl
      (by decide),
   (C6_screen_validation ⟨some "/home/u".toList, none, none, none⟩
      ["--screen".toList, "playlist".toList] exampleFS
      { defaultVarMap none with screen := some "playlist".toList }
      "/home/u".toList 6601 rfl rfl rfl rfl rfl).2.2
      (Or.inr ⟨"playlist".toList, rfl, by decide⟩) (Or.inl rfl)⟩
